import Mathlib

/-!
Verification development for the agent-verification pipeline
(`src/agent_verification_engine/`): fingerprinter, cached registry,
badge generator and verifier orchestrator.

Modelling conventions, used consistently below:
* Python `float` arithmetic is modelled with exact rationals (`ℚ`); every
  numeric constant in the code is an exact decimal literal.
* `hashlib` digests are modelled by an abstract parameter
  `h : String → String` applied to a canonical JSON-style encoding of the
  hashed data (`json.dumps(..., sort_keys=True)` becomes an explicit
  encoder with alphabetically ordered keys; string escaping inside JSON
  is elided since no claim depends on it).
* Wall-clock timestamps (`datetime.utcnow()`) are modelled by a `now : ℕ`
  parameter counting days; `get_days_since` becomes integer subtraction.
* `random.choices(...)` filler used by the fallback fingerprint is
  modelled by a `rand : String` parameter, one fresh value per call.
* Python dict values read with `.get(key, default)` are modelled as
  `Option` fields read with `Option.getD`.
* File-system / GitHub-cache persistence (`save_registry`,
  `load_registry`, `GitHubActionsCache`) is I/O plumbing; the registry is
  modelled as the in-memory insertion-ordered map it maintains.
-/

/-! ### Python string primitives, on `List Char` so that everything
kernel-reduces (core `String` functions are avoided inside the model). -/

/-- Lowercasing of `str.lower()` (ASCII-faithful, like `Char.toLower`). -/
def lowerL (s : List Char) : List Char := s.map Char.toLower

/-- Python substring containment `pat in s`. -/
def subL (p : List Char) : List Char → Bool
  | [] => p.isEmpty
  | c :: t => p.isPrefixOf (c :: t) || subL p t

/-- Fuel-driven helper for `pyCount`; the fuel (initially the length of the
string) bounds the recursion so the definition is structural. -/
def countOccAux (p : List Char) : Nat → List Char → Nat
  | 0, _ => 0
  | _, [] => 0
  | fuel + 1, c :: t =>
    if p.isPrefixOf (c :: t) then 1 + countOccAux p fuel ((c :: t).drop p.length)
    else countOccAux p fuel t

/-- Python `s.count(p)`: non-overlapping occurrence count, left to right. -/
def pyCount (p s : List Char) : Nat := countOccAux p s.length s

/-- Helper for `splitLines`. -/
def splitLinesAux (acc : List Char) : List Char → List (List Char)
  | [] => if acc.isEmpty then [] else [acc.reverse]
  | c :: t =>
    if c = '\n' then acc.reverse :: splitLinesAux [] t else splitLinesAux (c :: acc) t

/-- Python `str.splitlines()` for `\n`-separated text (other line
terminators do not occur in the analysed patterns). No trailing empty
line is produced. -/
def splitLines (s : List Char) : List (List Char) := splitLinesAux [] s

/-- Helper for `pySplit`. -/
def pySplitAux (acc : List Char) : List Char → List (List Char)
  | [] => if acc.isEmpty then [] else [acc.reverse]
  | c :: t =>
    if c.isWhitespace then
      (if acc.isEmpty then pySplitAux [] t else acc.reverse :: pySplitAux [] t)
    else pySplitAux (c :: acc) t

/-- Python `str.split()` with no argument: split on runs of whitespace,
discarding empty tokens. -/
def pySplit (s : List Char) : List (List Char) := pySplitAux [] s

/-- Python `str.split(c)`: keeps empty segments. -/
def splitOnCharAux (sep : Char) (acc : List Char) : List Char → List (List Char)
  | [] => [acc.reverse]
  | c :: t =>
    if c = sep then acc.reverse :: splitOnCharAux sep [] t
    else splitOnCharAux sep (c :: acc) t

/-- Python `str.split(c)` on a single character separator. -/
def splitOnChar (sep : Char) (s : List Char) : List (List Char) := splitOnCharAux sep [] s

/-- Substring test `pat in content` on raw content. -/
def hasSub (pat content : String) : Bool := subL pat.toList content.toList

/-- Substring test `pat in content.lower()`. -/
def hasSubLower (pat content : String) : Bool := subL pat.toList (lowerL content.toList)

/-- Occurrence count `content.count(pat)` on raw content. -/
def countSub (pat content : String) : Nat := pyCount pat.toList content.toList

/-- Occurrence count `content.lower().count(pat)`. -/
def countSubLower (pat content : String) : Nat := pyCount pat.toList (lowerL content.toList)

/-- Python `sorted(set(xs))` for strings: distinct elements in
lexicographic order. -/
def pySortedSet (l : List String) : List String := l.dedup.insertionSort (· ≤ ·)

/-- Python `round()`: round half to even (banker's rounding). -/
def pyRound (q : ℚ) : ℤ :=
  let f := ⌊q⌋
  let r := q - f
  if r < 1 / 2 then f
  else if 1 / 2 < r then f + 1
  else if f % 2 = 0 then f else f + 1

/-! ### Data model: scan input -/

/-- One `{path, content}` record of the `ScanInput`. -/
structure FileRec where
  path : String
  content : String
deriving DecidableEq, Repr

/-- The `scan_results` dictionary consumed by the pipeline.  Summary
fields are `Option`s because callers may omit them (`dict.get`). -/
structure ScanResults where
  files : List FileRec := []
  securityScore : Option ℚ := none
  issuesFound : Option ℕ := none
  hasSecurityUpdates : Option Bool := none
deriving DecidableEq, Repr

/-! ### Fingerprinter (`fingerprinter.py`)

Each sub-analysis of `AgentFingerprinter` is a deterministic aggregation
over file contents.  Loops of the form

  for file in files: for cand in CANDS: if pred(cand, file): found.add(cand)
  return sorted(found)

are rendered as `collectHits`: the sorted set built by the loop is exactly
the set of candidates hit by at least one file.  `normalize_patterns` is
the identity on the dictionaries built by `extract_behavioral_patterns` /
`extract_structural_patterns` (their values are dicts, never raw sets or
lists), so normalisation is already reflected by the `sorted(...)` calls
inside the sub-analysers. -/

/-- Sorted set of candidate names hit by at least one file. -/
def collectHits (cands : List (String × (FileRec → Bool))) (files : List FileRec) :
    List String :=
  pySortedSet ((cands.filter (fun c => files.any c.2)).map Prod.fst)

/-- Sum of a per-file count over all files. -/
def sumOver (files : List FileRec) (g : FileRec → ℕ) : ℕ := (files.map g).sum

/-- Result of `analyze_api_patterns`. -/
structure ApiPatterns where
  providers : List String
  callFrequency : ℕ
  authMethods : List String
  complexity : ℤ
deriving DecidableEq, Repr

/-- Provider keywords searched in lowercased content. -/
def providerCands : List (String × (FileRec → Bool)) :=
  [("openai", fun f => hasSubLower "openai" f.content),
   ("anthropic", fun f => hasSubLower "anthropic" f.content),
   ("cohere", fun f => hasSubLower "cohere" f.content),
   ("huggingface", fun f => hasSubLower "huggingface" f.content)]

/-- Auth-method hints: `bearer`/`authorization:` and `api_key`/`apikey`. -/
def authCands : List (String × (FileRec → Bool)) :=
  [("bearer", fun f => hasSubLower "bearer" f.content || hasSubLower "authorization:" f.content),
   ("api_key", fun f => hasSubLower "api_key" f.content || hasSubLower "apikey" f.content)]

/-- Call-site keyword patterns counted in lowercased content. -/
def apiCallPats : List String :=
  ["chat.completions.create", "complete(", "fetch(", "axios.get", "axios.post"]

/-- The `calculate_api_complexity` formula. -/
def calculate_api_complexity (nProviders callFrequency nAuth : ℕ) : ℤ :=
  pyRound ((nProviders : ℚ) * 2 + min ((callFrequency : ℚ) / 10) 5 + (nAuth : ℚ))

/-- The `analyze_api_patterns` sub-analysis. -/
def analyze_api_patterns (files : List FileRec) : ApiPatterns :=
  let providers := collectHits providerCands files
  let callFrequency := sumOver files (fun f => (apiCallPats.map (fun p => countSubLower p f.content)).sum)
  let authMethods := collectHits authCands files
  { providers := providers
    callFrequency := callFrequency
    authMethods := authMethods
    complexity := calculate_api_complexity providers.length callFrequency authMethods.length }

/-- Result of `analyze_error_handling`. -/
structure ErrorHandlingCounts where
  tryBlocks : ℕ
  catchBlocks : ℕ
  retryLogic : ℕ
  timeouts : ℕ
deriving DecidableEq, Repr

/-- The `analyze_error_handling` sub-analysis (`try`/`catch` are counted on
raw content, `retry`/`timeout` on lowercased content, as in the code). -/
def analyze_error_handling (files : List FileRec) : ErrorHandlingCounts :=
  { tryBlocks := sumOver files (fun f => countSub "try" f.content)
    catchBlocks := sumOver files (fun f => countSub "catch" f.content)
    retryLogic := sumOver files (fun f => countSubLower "retry" f.content)
    timeouts := sumOver files (fun f => countSubLower "timeout" f.content) }

/-- Result of `analyze_rate_limiting`. -/
structure RateLimitingCounts where
  sleepCalls : ℕ
  delays : ℕ
  queues : ℕ
  semaphores : ℕ
deriving DecidableEq, Repr

/-- The `analyze_rate_limiting` sub-analysis. -/
def analyze_rate_limiting (files : List FileRec) : RateLimitingCounts :=
  { sleepCalls := sumOver files (fun f => countSub "sleep" f.content)
    delays := sumOver files (fun f => countSubLower "delay" f.content)
    queues := sumOver files (fun f => countSubLower "queue" f.content)
    semaphores := sumOver files (fun f => countSubLower "semaphore" f.content) }

/-- Result of `analyze_data_flow`. -/
structure DataFlow where
  inputSources : List String
  outputTargets : List String
  transformations : ℕ
  validations : ℕ
deriving DecidableEq, Repr

/-- Input-channel hints of `analyze_data_flow` (raw content). -/
def inputCands : List (String × (FileRec → Bool)) :=
  [("user_input", fun f => hasSub "stdin" f.content || hasSub "input(" f.content),
   ("api", fun f => hasSub "fetch" f.content || hasSub "axios" f.content),
   ("file", fun f => hasSub "readfile" f.content || hasSub "fs." f.content)]

/-- Output-channel hints of `analyze_data_flow` (raw content). -/
def outputCands : List (String × (FileRec → Bool)) :=
  [("console", fun f => hasSub "console.log" f.content || hasSub "print(" f.content),
   ("file", fun f => hasSub "writefile" f.content || hasSub "fs.write" f.content)]

/-- The `analyze_data_flow` sub-analysis. -/
def analyze_data_flow (files : List FileRec) : DataFlow :=
  { inputSources := collectHits inputCands files
    outputTargets := collectHits outputCands files
    transformations := sumOver files
      (fun f => (["transform", "map", "filter", "reduce"].map (fun k => countSubLower k f.content)).sum)
    validations := sumOver files
      (fun f => (["validate", "sanitize", "clean"].map (fun k => countSubLower k f.content)).sum) }

/-- Behavioral category: the four sub-analyses bundled by
`extract_behavioral_patterns`. -/
structure BehavioralPatterns where
  api_patterns : ApiPatterns
  error_handling : ErrorHandlingCounts
  rate_limiting : RateLimitingCounts
  data_flow : DataFlow
deriving DecidableEq, Repr

/-- The `extract_behavioral_patterns` aggregation. -/
def extract_behavioral_patterns (files : List FileRec) : BehavioralPatterns :=
  { api_patterns := analyze_api_patterns files
    error_handling := analyze_error_handling files
    rate_limiting := analyze_rate_limiting files
    data_flow := analyze_data_flow files }

/-- The `Path(path).suffix` used by `detect_languages`: `"." + ext` when the
final path component has an internal dot, `""` otherwise. -/
def pathSuffix (p : String) : String :=
  let name := (splitOnChar '/' p.toList).getLastD []
  match name.reverse.indexOf? '.' with
  | none => ""
  | some k => if 1 ≤ k ∧ k + 2 ≤ name.length then String.mk ('.' :: (name.reverse.take k).reverse) else ""

/-- The extension-to-language table of `detect_languages`. -/
def extMap : String → Option String
  | ".py" => some "python"
  | ".js" => some "javascript"
  | ".ts" => some "typescript"
  | ".go" => some "go"
  | ".java" => some "java"
  | ".cpp" => some "cpp"
  | ".c" => some "c"
  | _ => none

/-- The `detect_languages` helper: `sorted(filter(None, {map per file}))`. -/
def detect_languages (files : List FileRec) : List String :=
  pySortedSet (files.filterMap (fun f => extMap (String.mk (lowerL (pathSuffix f.path).toList))))

/-- Framework keyword hints of `detect_frameworks` (lowercased content). -/
def frameworkCands : List (String × (FileRec → Bool)) :=
  [("express", fun f => hasSubLower "express" f.content),
   ("fastapi", fun f => hasSubLower "fastapi" f.content),
   ("flask", fun f => hasSubLower "flask" f.content),
   ("react", fun f => hasSubLower "react" f.content)]

/-- Architectural hints of `detect_architectural_patterns` (raw content). -/
def archCands : List (String × (FileRec → Bool)) :=
  [("object_oriented", fun f => hasSub "class " f.content && hasSub "def " f.content),
   ("async", fun f => hasSub "async " f.content || hasSub "await " f.content)]

/-- Result of `analyze_architecture`. -/
structure Architecture where
  fileCount : ℕ
  languages : List String
  frameworks : List String
  patterns : List String
deriving DecidableEq, Repr

/-- The `analyze_architecture` sub-analysis. -/
def analyze_architecture (files : List FileRec) : Architecture :=
  { fileCount := files.length
    languages := detect_languages files
    frameworks := collectHits frameworkCands files
    patterns := collectHits archCands files }

/-- Per-line dependency extraction of `analyze_dependencies`.  A line
containing `"import "` or `"from "` whose whitespace tokens contain
`"import"` contributes `tokens[tokens.index("import") + 1].split(".")[0]`;
when `"import"` is the last token, `tokens[...]` raises `IndexError`
(Python message `list index out of range`). -/
def depOfLine (line : List Char) : Except String (Option String) :=
  if subL "import ".toList line || subL "from ".toList line then
    let tokens := pySplit line
    match tokens.indexOf? "import".toList with
    | none => Except.ok none
    | some i =>
      match tokens.get? (i + 1) with
      | none => Except.error "list index out of range"
      | some t => Except.ok (some (String.mk (t.takeWhile (fun c => c ≠ '.'))))
  else Except.ok none

/-- Dependency tokens of the lines of one file, in line order; the first
raising line aborts the whole extraction, as in Python. -/
def fileDepsAux : List (List Char) → Except String (List String)
  | [] => Except.ok []
  | l :: rest =>
    match depOfLine l with
    | Except.error e => Except.error e
    | Except.ok d =>
      match fileDepsAux rest with
      | Except.error e => Except.error e
      | Except.ok ds => Except.ok (match d with | some x => x :: ds | none => ds)

/-- Dependency tokens contributed by one file. -/
def fileDeps (f : FileRec) : Except String (List String) :=
  fileDepsAux (splitLines f.content.toList)

/-- Dependency tokens of all files, concatenated in file order. -/
def allDeps : List FileRec → Except String (List String)
  | [] => Except.ok []
  | f :: rest =>
    match fileDeps f with
    | Except.error e => Except.error e
    | Except.ok a =>
      match allDeps rest with
      | Except.error e => Except.error e
      | Except.ok b => Except.ok (a ++ b)

/-- The `analyze_dependencies` sub-analysis: `sorted(deps)` over the set of
collected tokens, or the propagated `IndexError`. -/
def analyze_dependencies (files : List FileRec) : Except String (List String) :=
  match allDeps files with
  | Except.error e => Except.error e
  | Except.ok l => Except.ok (pySortedSet l)

/-- Structural category bundled by `extract_structural_patterns`.  The
constant sub-results of `analyze_configuration` (`{configType: "yaml",
hasConfig: true}`) and `analyze_file_structure` (`{structure: "modular"}`)
carry no information and appear only in the canonical encoding below. -/
structure StructuralPatterns where
  architecture : Architecture
  dependencies : List String
deriving DecidableEq, Repr

/-- The `extract_structural_patterns` aggregation; `analyze_dependencies`
is its only sub-analysis that can raise. -/
def extract_structural_patterns (files : List FileRec) : Except String StructuralPatterns :=
  match analyze_dependencies files with
  | Except.error e => Except.error e
  | Except.ok deps => Except.ok { architecture := analyze_architecture files, dependencies := deps }

/-- Decidable equality for `Except`, needed to evaluate extraction results
on concrete inputs. -/
instance {ε α : Type} [DecidableEq ε] [DecidableEq α] : DecidableEq (Except ε α) := fun a b =>
  match a, b with
  | Except.ok x, Except.ok y =>
    if h : x = y then isTrue (by rw [h]) else isFalse (fun hh => h (Except.ok.inj hh))
  | Except.error x, Except.error y =>
    if h : x = y then isTrue (by rw [h]) else isFalse (fun hh => h (Except.error.inj hh))
  | Except.ok _, Except.error _ => isFalse (fun hh => Except.noConfusion hh)
  | Except.error _, Except.ok _ => isFalse (fun hh => Except.noConfusion hh)

/-! ### Canonical JSON-style encodings (`json.dumps(..., sort_keys=True)`)

Keys appear in alphabetical order, values in Python JSON spelling; string
escaping is elided (no analysed pattern produces characters needing it).
The abstract digest `h : String → String` is applied to these encodings,
mirroring `create_hash`. -/

/-- JSON string value. -/
def encJsonStr (s : String) : String := "\"" ++ s ++ "\""

/-- JSON array of strings. -/
def encStrList (l : List String) : String :=
  "[" ++ String.intercalate ", " (l.map encJsonStr) ++ "]"

/-- Encoding of an `analyze_api_patterns` result. -/
def encApiPatterns (a : ApiPatterns) : String :=
  "\x7b\"authMethods\": " ++ encStrList a.authMethods ++
    ", \"callFrequency\": " ++ toString a.callFrequency ++
    ", \"complexity\": " ++ toString a.complexity ++
    ", \"providers\": " ++ encStrList a.providers ++ "\x7d"

/-- Encoding of an `analyze_error_handling` result. -/
def encErrorHandling (e : ErrorHandlingCounts) : String :=
  "\x7b\"catchBlocks\": " ++ toString e.catchBlocks ++
    ", \"retryLogic\": " ++ toString e.retryLogic ++
    ", \"timeouts\": " ++ toString e.timeouts ++
    ", \"tryBlocks\": " ++ toString e.tryBlocks ++ "\x7d"

/-- Encoding of an `analyze_rate_limiting` result. -/
def encRateLimiting (r : RateLimitingCounts) : String :=
  "\x7b\"delays\": " ++ toString r.delays ++
    ", \"queues\": " ++ toString r.queues ++
    ", \"semaphores\": " ++ toString r.semaphores ++
    ", \"sleepCalls\": " ++ toString r.sleepCalls ++ "\x7d"

/-- Encoding of an `analyze_data_flow` result. -/
def encDataFlow (d : DataFlow) : String :=
  "\x7b\"inputSources\": " ++ encStrList d.inputSources ++
    ", \"outputTargets\": " ++ encStrList d.outputTargets ++
    ", \"transformations\": " ++ toString d.transformations ++
    ", \"validations\": " ++ toString d.validations ++ "\x7d"

/-- Encoding of the behavioral category. -/
def encBehavioral (b : BehavioralPatterns) : String :=
  "\x7b\"api_patterns\": " ++ encApiPatterns b.api_patterns ++
    ", \"data_flow\": " ++ encDataFlow b.data_flow ++
    ", \"error_handling\": " ++ encErrorHandling b.error_handling ++
    ", \"rate_limiting\": " ++ encRateLimiting b.rate_limiting ++ "\x7d"

/-- Encoding of an `analyze_architecture` result. -/
def encArchitecture (a : Architecture) : String :=
  "\x7b\"fileCount\": " ++ toString a.fileCount ++
    ", \"frameworks\": " ++ encStrList a.frameworks ++
    ", \"languages\": " ++ encStrList a.languages ++
    ", \"patterns\": " ++ encStrList a.patterns ++ "\x7d"

/-- Encoding of the structural category, including the constant
`configuration` and `file_structure` sub-results. -/
def encStructural (s : StructuralPatterns) : String :=
  "\x7b\"architecture\": " ++ encArchitecture s.architecture ++
    ", \"configuration\": \x7b\"configType\": \"yaml\", \"hasConfig\": true\x7d" ++
    ", \"dependencies\": " ++ encStrList s.dependencies ++
    ", \"file_structure\": \x7b\"structure\": \"modular\"\x7d\x7d"

/-! ### Fingerprint generation -/

/-- The `metadata` block of a fingerprint; `algorithm` is present only on
the happy path, `error` only on the fallback path, as in the code. -/
structure FingerprintMeta where
  generated : ℕ
  version : String
  algorithm : Option String
  error : Option String
deriving DecidableEq, Repr

/-- A generated fingerprint. -/
structure Fingerprint where
  behavioral : String
  structural : String
  composite : String
  metadata : FingerprintMeta
deriving DecidableEq, Repr

/-- The `create_hash` helper: digest of the canonical encoding. -/
def create_hash (h : String → String) (data : String) : String := h data

/-- The `create_composite_hash` helper: digests the two category hashes
together with the timestamp bucket (`"static"` when
`include_timestamp=false`). -/
def create_composite_hash (h : String → String) (includeTimestamp : Bool) (now : ℕ)
    (behavioralHash structuralHash : String) : String :=
  create_hash h
    ("\x7b\"behavioral\": " ++ encJsonStr behavioralHash ++
      ", \"structural\": " ++ encJsonStr structuralHash ++
      ", \"timestamp\": " ++ encJsonStr (if includeTimestamp then toString now else "static") ++ "\x7d")

/-- The `create_fallback_fingerprint` result: all three hashes digest the
same `{basic, error, timestamp}` record built from the random filler. -/
def create_fallback_fingerprint (h : String → String) (now : ℕ) (rand : String) : Fingerprint :=
  let fb := "\x7b\"basic\": " ++ encJsonStr rand ++ ", \"error\": true, \"timestamp\": " ++
    encJsonStr (toString now) ++ "\x7d"
  { behavioral := create_hash h fb
    structural := create_hash h fb
    composite := create_hash h fb
    metadata := { generated := now, version := "1.0", algorithm := none,
                  error := some "Fingerprint generation failed, using fallback" } }

/-- The `generate_fingerprint` operation.  The `try/except` around
extraction is rendered by the match on `extract_structural_patterns`
(the only sub-analysis that can raise); on error the fallback fingerprint
is returned instead of propagating. -/
def generate_fingerprint (h : String → String) (includeTimestamp : Bool) (scan : ScanResults)
    (now : ℕ) (rand : String) : Fingerprint :=
  match extract_structural_patterns scan.files with
  | Except.error _ => create_fallback_fingerprint h now rand
  | Except.ok st =>
    let behavioralHash := create_hash h (encBehavioral (extract_behavioral_patterns scan.files))
    let structuralHash := create_hash h (encStructural st)
    { behavioral := behavioralHash
      structural := structuralHash
      composite := create_composite_hash h includeTimestamp now behavioralHash structuralHash
      metadata := { generated := now, version := "1.0", algorithm := some "sha256", error := none } }

/-! ### Registry (`github_actions_cache.py`, class `CachedAgentRegistry`)

The registry is the insertion-ordered mapping `agentId → AgentRecord`
maintained in memory; `initialize`/`save_registry`/`load_registry` are
persistence plumbing and are elided.  Enrichment metadata is modelled by
the fields that influence scoring; pass-through GitHub fields (forks,
watchers, sha, ...) never affect any verified behaviour and are elided. -/

/-- The scoring-relevant metadata dictionary (`enrich_metadata` output or
caller-supplied).  Absent keys are `none`. -/
structure Metadata where
  securityScore : Option ℚ := none
  securityIssuesFound : Option ℕ := none
  hasSecurityUpdates : Option Bool := none
  hasTests : Option Bool := none
  hasDocumentation : Option Bool := none
  hasLicense : Option Bool := none
  complexity : Option String := none
  githubStars : Option ℚ := none
deriving DecidableEq, Repr

/-- Python `old.update(new)`: every key present in `new` overwrites. -/
def mergeMeta (old new : Metadata) : Metadata :=
  { securityScore := new.securityScore.orElse (fun _ => old.securityScore)
    securityIssuesFound := new.securityIssuesFound.orElse (fun _ => old.securityIssuesFound)
    hasSecurityUpdates := new.hasSecurityUpdates.orElse (fun _ => old.hasSecurityUpdates)
    hasTests := new.hasTests.orElse (fun _ => old.hasTests)
    hasDocumentation := new.hasDocumentation.orElse (fun _ => old.hasDocumentation)
    hasLicense := new.hasLicense.orElse (fun _ => old.hasLicense)
    complexity := new.complexity.orElse (fun _ => old.complexity)
    githubStars := new.githubStars.orElse (fun _ => old.githubStars) }

/-- A registry record (`agent_record` of `register_agent`).  The metadata
dictionary is flattened: `created`, `lastVerified` and `verificationCount`
are the registry-managed keys, `extra` holds the merged enrichment
metadata. -/
structure AgentRecord where
  id : String
  fingerprint : String
  fingerprintBehavioral : String
  fingerprintStructural : String
  repositories : List String
  trustScore : ℚ
  created : ℕ
  lastVerified : ℕ
  verificationCount : ℕ
  extra : Metadata
deriving DecidableEq, Repr

/-- Association-list lookup for the insertion-ordered Python dict. -/
def lookupA {α : Type} (k : String) : List (String × α) → Option α
  | [] => none
  | (k₂, v) :: rest => if k₂ = k then some v else lookupA k rest

/-- Association-list store `d[k] = v`: replace in place when the key is
present (Python dicts keep the original position), append otherwise. -/
def insertA {α : Type} (k : String) (v : α) : List (String × α) → List (String × α)
  | [] => [(k, v)]
  | (k₂, v₂) :: rest => if k₂ = k then (k, v) :: rest else (k₂, v₂) :: insertA k v rest

/-- The in-memory registry mapping `agentId → AgentRecord`. -/
abbrev RegistryMap : Type := List (String × AgentRecord)

/-- The `generate_agent_did` identifier (the `github_actions_cache.py`
variant, without the `did:` sub-prefix): truncated repo hash and truncated
composite hash.  Its `try/except` fallback is unreachable for string
inputs and is elided. -/
def generate_agent_did (h : String → String) (repoUrl : String) (fp : Fingerprint) : String :=
  "agentproof:" ++ (h repoUrl).take 12 ++ "-" ++ fp.composite.take 12

/-- The `calculate_initial_trust_score` formula for a new agent; the
`fingerprint` argument is unused by the code.  Its `try/except` fallback
to `0.5` is unreachable for typed metadata and is elided. -/
def calculate_initial_trust_score (fp : Fingerprint) (metadata : Metadata) : ℚ :=
  let score : ℚ := 0.5
  let score := if metadata.securityScore.getD 0 > 0.8 then score + 0.2 else score
  let score := if metadata.hasTests.getD false then score + 0.1 else score
  let score := if metadata.hasDocumentation.getD false then score + 0.1 else score
  let score := if metadata.hasLicense.getD false then score + 0.05 else score
  let score :=
    if metadata.complexity.getD "" = "low" then score + 0.05
    else if metadata.complexity.getD "" = "high" then score - 0.05
    else score
  let score :=
    if metadata.githubStars.getD 0 > 10 then score + min 0.1 (metadata.githubStars.getD 0 / 1000)
    else score
  max 0.1 (min 1.0 score)

/-- The `get_days_since` helper: with timestamps as day counts it is the
integer difference.  The parse-failure branch returning `999` is
unreachable because records always carry a `lastVerified` timestamp. -/
def get_days_since (now lastVerified : ℕ) : ℤ := (now : ℤ) - (lastVerified : ℤ)

/-- The `update_trust_score` formula for an existing agent, evaluated on
the record as it stands when `update_agent` calls it (repository already
appended, `verificationCount` already bumped, `lastVerified` already
overwritten with the current time). -/
def update_trust_score (now : ℕ) (agent : AgentRecord) (metadata : Metadata) : ℚ :=
  let base_score := agent.trustScore
  let adjusted_score := base_score
  let adjusted_score := adjusted_score + min 0.2 ((agent.verificationCount : ℚ) * 0.02)
  let adjusted_score := adjusted_score + min 0.15 (((agent.repositories.length : ℚ) - 1) * 0.05)
  let adjusted_score :=
    if get_days_since now agent.lastVerified < 7 then adjusted_score + 0.05 else adjusted_score
  let adjusted_score :=
    if metadata.securityIssuesFound.getD 1 = 0 then adjusted_score + 0.05 else adjusted_score
  let adjusted_score :=
    if metadata.hasSecurityUpdates.getD false then adjusted_score + 0.03 else adjusted_score
  max 0.1 (min 1.0 adjusted_score)

/-- The `update_agent` operation.  Mirrors the statement order of the code:
append the repository if absent, overwrite `lastVerified`, bump
`verificationCount`, recompute the trust score on the mutated record, then
merge the supplied metadata.  A missing identifier raises `ValueError`. -/
def update_agent (now : ℕ) (agentId repoUrl : String) (fp : Fingerprint) (metadata : Metadata)
    (reg : RegistryMap) : Except String (AgentRecord × RegistryMap) :=
  match lookupA agentId reg with
  | none => Except.error ("Agent " ++ agentId ++ " not found")
  | some agent =>
    let agent := { agent with
      repositories :=
        if repoUrl ∈ agent.repositories then agent.repositories
        else agent.repositories ++ [repoUrl] }
    let agent := { agent with lastVerified := now, verificationCount := agent.verificationCount + 1 }
    let agent := { agent with trustScore := update_trust_score now agent metadata }
    let agent := { agent with extra := mergeMeta agent.extra metadata }
    Except.ok (agent, insertA agentId agent reg)

/-- The `register_agent` operation: derive the identifier; if a record
already exists under it, delegate to `update_agent`, otherwise create the
fresh record with `verificationCount = 1` and the initial trust score. -/
def register_agent (h : String → String) (now : ℕ) (repoUrl : String) (fp : Fingerprint)
    (metadata : Metadata) (reg : RegistryMap) : Except String (AgentRecord × RegistryMap) :=
  let agentId := generate_agent_did h repoUrl fp
  match lookupA agentId reg with
  | some _ => update_agent now agentId repoUrl fp metadata reg
  | none =>
    let agentRecord : AgentRecord :=
      { id := agentId
        fingerprint := fp.composite
        fingerprintBehavioral := fp.behavioral
        fingerprintStructural := fp.structural
        repositories := [repoUrl]
        trustScore := calculate_initial_trust_score fp metadata
        created := now
        lastVerified := now
        verificationCount := 1
        extra := metadata }
    Except.ok (agentRecord, insertA agentId agentRecord reg)

/-- The lookup report of `verify_agent_consistency`. -/
structure ConsistencyResult where
  consistent : Bool
  agentId : Option String
  trustScore : ℚ
  repositories : List String
  crossRepoCount : ℕ
  verificationHistory : ℕ
deriving DecidableEq, Repr

/-- The linear scan of `verify_agent_consistency`: first record (in
insertion order) whose stored composite equals the new one. -/
def findAgent (composite : String) : List (String × AgentRecord) → Option AgentRecord
  | [] => none
  | (_, a) :: rest => if a.fingerprint = composite then some a else findAgent composite rest

/-- The `verify_agent_consistency` operation; `currentRepo` is accepted and
ignored, as in the code. -/
def verify_agent_consistency (fp : Fingerprint) (currentRepo : String) (reg : RegistryMap) :
    ConsistencyResult :=
  match findAgent fp.composite reg with
  | some agent =>
    { consistent := true
      agentId := some agent.id
      trustScore := agent.trustScore
      repositories := agent.repositories
      crossRepoCount := agent.repositories.length
      verificationHistory := agent.verificationCount }
  | none =>
    { consistent := false
      agentId := none
      trustScore := 0
      repositories := []
      crossRepoCount := 0
      verificationHistory := 0 }

/-! ### Badge generator (`badge.py`) -/

/-- The 5-tier trust-level ladder of `get_trust_level`. -/
def get_trust_level (score : ℚ) : String :=
  if score ≥ 0.9 then "verified"
  else if score ≥ 0.75 then "trusted"
  else if score ≥ 0.6 then "validated"
  else if score ≥ 0.4 then "basic"
  else "unverified"

/-- The matching color ladder of `get_trust_color`. -/
def get_trust_color (score : ℚ) : String :=
  if score ≥ 0.9 then "#4c1"
  else if score ≥ 0.75 then "#97CA00"
  else if score ≥ 0.6 then "#dfb317"
  else if score ≥ 0.4 then "#fe7d37"
  else "#e05d44"

/-- Python `round(x, 2)` (banker's rounding to two decimals). -/
def pyRound2 (q : ℚ) : ℚ := (pyRound (q * 100) : ℚ) / 100

/-- The badge metadata assembled by `prepare_badge_data`. -/
structure BadgeData where
  agentId : String
  trustScore : ℚ
  trustLevel : String
  color : String
  repositories : ℕ
  verificationCount : ℕ
  consistent : Bool
  timestamp : ℕ
  hash : String
deriving DecidableEq, Repr

/-- The `create_badge_hash` digest: `sha256(str(data))[:16]` over
`{agentId, trustScore, timestamp-date}`.  Python's `repr` formatting of the
dict is rendered canonically (numeric spelling differs, determinism does
not). -/
def create_badge_hash (h : String → String) (now : ℕ) (agent : AgentRecord) : String :=
  (h ("\x7b\x27agentId\x27: \x27" ++ agent.id ++ "\x27, \x27trustScore\x27: " ++
    toString agent.trustScore ++ ", \x27timestamp\x27: \x27" ++ toString now ++ "\x27\x7d")).take 16

/-- The `prepare_badge_data` assembly. -/
def prepare_badge_data (h : String → String) (now : ℕ) (agent : AgentRecord)
    (verification : ConsistencyResult) : BadgeData :=
  { agentId := agent.id
    trustScore := pyRound2 agent.trustScore
    trustLevel := get_trust_level agent.trustScore
    color := get_trust_color agent.trustScore
    repositories := agent.repositories.length
    verificationCount := agent.verificationCount
    consistent := verification.consistent
    timestamp := now
    hash := create_badge_hash h now agent }

/-- The `calculate_badge_width` formula. -/
def calculate_badge_width (data : BadgeData) : ℕ :=
  50 + max 60 (data.trustLevel.length * 7 + 20)

/-- The shields-style SVG of `create_badge_svg`.  All interpolated
quantities are integers (`(label_width + value_width / 2) * 10` is the
integer `500 + value_width * 5`); Python's float spelling of them (a
trailing `.0`) is elided. -/
def create_badge_svg (data : BadgeData) : String :=
  let width := calculate_badge_width data
  let labelWidth := 50
  let valueWidth := width - labelWidth
  let q := "\x27"
  "<svg xmlns=" ++ q ++ "http://www.w3.org/2000/svg" ++ q ++ " width=" ++ q ++ toString width ++ q ++
    " height=" ++ q ++ "20" ++ q ++ " role=" ++ q ++ "img" ++ q ++ " aria-label=" ++ q ++
    "agent: " ++ data.trustLevel ++ q ++ ">\n" ++
  "  <title>agent: " ++ data.trustLevel ++ "</title>\n" ++
  "  <linearGradient id=" ++ q ++ "s" ++ q ++ " x2=" ++ q ++ "0" ++ q ++ " y2=" ++ q ++ "100%" ++ q ++ ">\n" ++
  "    <stop offset=" ++ q ++ "0" ++ q ++ " stop-color=" ++ q ++ "#bbb" ++ q ++ " stop-opacity=" ++ q ++ ".1" ++ q ++ "/>\n" ++
  "    <stop offset=" ++ q ++ "1" ++ q ++ " stop-opacity=" ++ q ++ ".1" ++ q ++ "/>\n" ++
  "  </linearGradient>\n" ++
  "  <clipPath id=" ++ q ++ "r" ++ q ++ ">\n" ++
  "    <rect width=" ++ q ++ toString width ++ q ++ " height=" ++ q ++ "20" ++ q ++ " rx=" ++ q ++ "3" ++ q ++ " fill=" ++ q ++ "#fff" ++ q ++ "/>\n" ++
  "  </clipPath>\n" ++
  "  <g clip-path=" ++ q ++ "url(#r)" ++ q ++ ">\n" ++
  "    <rect width=" ++ q ++ toString labelWidth ++ q ++ " height=" ++ q ++ "20" ++ q ++ " fill=" ++ q ++ "#555" ++ q ++ "/>\n" ++
  "    <rect x=" ++ q ++ toString labelWidth ++ q ++ " width=" ++ q ++ toString valueWidth ++ q ++ " height=" ++ q ++ "20" ++ q ++ " fill=" ++ q ++ data.color ++ q ++ "/>\n" ++
  "    <rect width=" ++ q ++ toString width ++ q ++ " height=" ++ q ++ "20" ++ q ++ " fill=" ++ q ++ "url(#s)" ++ q ++ "/>\n" ++
  "  </g>\n" ++
  "  <g fill=" ++ q ++ "#fff" ++ q ++ " text-anchor=" ++ q ++ "middle" ++ q ++
    " font-family=" ++ q ++ "Verdana,Geneva,DejaVu Sans,sans-serif" ++ q ++
    " text-rendering=" ++ q ++ "geometricPrecision" ++ q ++ " font-size=" ++ q ++ "110" ++ q ++ ">\n" ++
  "    <text aria-hidden=" ++ q ++ "true" ++ q ++ " x=" ++ q ++ toString (labelWidth * 5) ++ q ++
    " y=" ++ q ++ "150" ++ q ++ " fill=" ++ q ++ "#010101" ++ q ++ " fill-opacity=" ++ q ++ ".3" ++ q ++
    " transform=" ++ q ++ "scale(.1)" ++ q ++ " textLength=" ++ q ++ toString ((labelWidth - 10) * 10) ++ q ++ ">agent</text>\n" ++
  "    <text x=" ++ q ++ toString (labelWidth * 5) ++ q ++ " y=" ++ q ++ "140" ++ q ++
    " transform=" ++ q ++ "scale(.1)" ++ q ++ " fill=" ++ q ++ "#fff" ++ q ++
    " textLength=" ++ q ++ toString ((labelWidth - 10) * 10) ++ q ++ ">agent</text>\n" ++
  "    <text aria-hidden=" ++ q ++ "true" ++ q ++ " x=" ++ q ++ toString (500 + valueWidth * 5) ++ q ++
    " y=" ++ q ++ "150" ++ q ++ " fill=" ++ q ++ "#010101" ++ q ++ " fill-opacity=" ++ q ++ ".3" ++ q ++
    " transform=" ++ q ++ "scale(.1)" ++ q ++ " textLength=" ++ q ++ toString ((valueWidth - 10) * 10) ++ q ++ ">" ++ data.trustLevel ++ "</text>\n" ++
  "    <text x=" ++ q ++ toString (500 + valueWidth * 5) ++ q ++ " y=" ++ q ++ "140" ++ q ++
    " transform=" ++ q ++ "scale(.1)" ++ q ++ " fill=" ++ q ++ "#fff" ++ q ++
    " textLength=" ++ q ++ toString ((valueWidth - 10) * 10) ++ q ++ ">" ++ data.trustLevel ++ "</text>\n" ++
  "  </g>\n</svg>"

/-- The default badge base URL of the verifier options. -/
def badge_base_url : String := "https://agentproof.dev"

/-- A generated badge artifact. -/
structure Badge where
  svg : String
  metadata : BadgeData
  verificationUrl : String
  markdown : String
  html : String
deriving DecidableEq, Repr

/-- The `generate_badge` operation (happy path; its `try/except` fallback
badge is unreachable for typed inputs and is elided). -/
def generate_badge (h : String → String) (now : ℕ) (agent : AgentRecord)
    (verification : ConsistencyResult) : Badge :=
  let data := prepare_badge_data h now agent verification
  let verificationUrl := badge_base_url ++ "/verify/" ++ data.hash
  { svg := create_badge_svg data
    metadata := data
    verificationUrl := verificationUrl
    markdown := "[![Agent Verification](" ++ badge_base_url ++ "/badge/" ++ data.hash ++
      ".svg)](" ++ verificationUrl ++ ")"
    html := "<a href=\"" ++ verificationUrl ++ "\"><img src=\"" ++ badge_base_url ++ "/badge/" ++
      data.hash ++ ".svg\" alt=\"Agent Verification: " ++ data.trustLevel ++ "\"></a>" }

/-! ### Verifier orchestrator (`verifier.py`) -/

/-- GitHub repository metadata consumed by `enrich_metadata`; only
`stargazers_count` influences any verified behaviour, the remaining
pass-through enrichment fields are elided. -/
structure GithubContext where
  stargazersCount : Option ℕ := none
deriving DecidableEq, Repr

/-- The `detect_tests` heuristic. -/
def detect_tests (scan : ScanResults) : Bool :=
  scan.files.any (fun f =>
    hasSubLower "test" f.path || hasSubLower "spec" f.path ||
    hasSub "test(" f.content || hasSub "describe(" f.content ||
    hasSub "unittest" f.content || hasSub "pytest" f.content)

/-- The `detect_documentation` heuristic. -/
def detect_documentation (scan : ScanResults) : Bool :=
  scan.files.any (fun f =>
    List.isSuffixOf ".md".toList (lowerL f.path.toList) ||
    List.isSuffixOf ".rst".toList (lowerL f.path.toList) ||
    List.isSuffixOf ".txt".toList (lowerL f.path.toList) ||
    hasSubLower "readme" f.path || hasSubLower "doc" f.path ||
    hasSubLower "documentation" f.path)

/-- The `detect_license` heuristic. -/
def detect_license (scan : ScanResults) : Bool :=
  scan.files.any (fun f =>
    hasSubLower "license" f.path || hasSubLower "licence" f.path ||
    hasSubLower "copying" f.path)

/-- The `assess_complexity` 3-bucket estimate from total line count over
files with non-empty content. -/
def assess_complexity (scan : ScanResults) : String :=
  let totalLines := sumOver (scan.files.filter (fun f => f.content != ""))
    (fun f => (splitLines f.content.toList).length)
  if totalLines < 500 then "low"
  else if totalLines < 2000 then "medium"
  else "high"

/-- The `enrich_metadata` assembly.  The per-sub-step `try/except` guards
never fire for typed inputs; `scannerVersion`/`verificationSource` and the
GitHub pass-through fields do not influence verified behaviour and are
elided. -/
def enrich_metadata (scan : ScanResults) (ctx : GithubContext) : Metadata :=
  { securityScore := some (scan.securityScore.getD 0.5)
    securityIssuesFound := some (scan.issuesFound.getD 0)
    hasSecurityUpdates := some (scan.hasSecurityUpdates.getD false)
    hasTests := some (detect_tests scan)
    hasDocumentation := some (detect_documentation scan)
    hasLicense := some (detect_license scan)
    complexity := some (assess_complexity scan)
    githubStars := some ((ctx.stargazersCount.getD 0 : ℕ) : ℚ) }

/-- JSON encoding of the files list for the cache key
(`json.dumps(files, sort_keys=True)`: keys `content` before `path`). -/
def encFiles (files : List FileRec) : String :=
  "[" ++ String.intercalate ", "
    (files.map (fun f => "\x7b\"content\": " ++ encJsonStr f.content ++
      ", \"path\": " ++ encJsonStr f.path ++ "\x7d")) ++ "]"

/-- The `create_cache_key` helper: outer `json.dumps` without `sort_keys`
keeps insertion order (`repoUrl` before `filesHash`). -/
def create_cache_key (h : String → String) (repoUrl : String) (scan : ScanResults) : String :=
  "\x7b\"repoUrl\": " ++ encJsonStr repoUrl ++ ", \"filesHash\": " ++
    encJsonStr ((h (encFiles scan.files)).take 16) ++ "\x7d"

/-- The error block of the structured failure result. -/
structure ErrorInfo where
  message : String
  timestamp : ℕ
  repoUrl : String
deriving DecidableEq, Repr

/-- The trailing metadata block of a successful result. -/
structure ResultMeta where
  verificationTime : ℕ
  version : String
deriving DecidableEq, Repr

/-- The fingerprint summary embedded in a successful result. -/
structure FingerprintSummary where
  composite : String
  generated : ℕ
deriving DecidableEq, Repr

/-- The result shape of `verify_agent`.  Keys absent from the Python dict
in a given shape (e.g. `error` on success, `metadata` on failure) are
`none`. -/
structure VerificationResult where
  success : Bool
  agent : Option AgentRecord
  verification : Option ConsistencyResult
  badge : Option Badge
  fingerprint : Option FingerprintSummary
  error : Option ErrorInfo
  metadata : Option ResultMeta
deriving DecidableEq, Repr

/-- The `create_error_result` structure: the single external failure
contract. -/
def create_error_result (message : String) (now : ℕ) (repoUrl : String) : VerificationResult :=
  { success := false
    agent := none
    verification := none
    badge := none
    fingerprint := none
    error := some { message := message, timestamp := now, repoUrl := repoUrl }
    metadata := none }

/-- Process state owned by the verifier: the registry plus the in-process
result cache. -/
structure VerifierState where
  registry : RegistryMap := []
  cache : List (String × VerificationResult) := []
deriving DecidableEq, Repr

/-- The body of `verify_agent` after the cache check.  An error-flagged
fingerprint raises `ValueError("Failed to generate valid fingerprint")`;
that and any registry `ValueError` are converted by the surrounding
`try/except` into `create_error_result`.  On success the result is stored
in the cache (when enabled) and the mutated registry becomes the new
state. -/
def verify_agent_uncached (h : String → String) (now : ℕ) (enableCache : Bool)
    (repoUrl : String) (scan : ScanResults) (ctx : GithubContext) (rand : String)
    (st : VerifierState) : VerificationResult × VerifierState :=
  let key := create_cache_key h repoUrl scan
  let fp := generate_fingerprint h false scan now rand
  if fp.metadata.error.getD "" ≠ "" then
    (create_error_result "Failed to generate valid fingerprint" now repoUrl, st)
  else
    let consistency := verify_agent_consistency fp repoUrl st.registry
    let enriched := enrich_metadata scan ctx
    match (if consistency.consistent then
             update_agent now (consistency.agentId.getD "") repoUrl fp enriched st.registry
           else register_agent h now repoUrl fp enriched st.registry) with
    | Except.error e => (create_error_result e now repoUrl, st)
    | Except.ok (agentRecord, registry) =>
      let badge := generate_badge h now agentRecord consistency
      let result : VerificationResult :=
        { success := true
          agent := some agentRecord
          verification := some consistency
          badge := some badge
          fingerprint := some { composite := fp.composite, generated := fp.metadata.generated }
          error := none
          metadata := some { verificationTime := now, version := "1.0" } }
      let cache := if enableCache then insertA key result st.cache else st.cache
      (result, { registry := registry, cache := cache })

/-- The `verify_agent` orchestration: compute the cache key; when caching
is enabled and a prior result exists, return it unchanged with the state
untouched; otherwise run the uncached body. -/
def verify_agent (h : String → String) (now : ℕ) (enableCache : Bool) (repoUrl : String)
    (scan : ScanResults) (ctx : GithubContext) (rand : String) (st : VerifierState) :
    VerificationResult × VerifierState :=
  let key := create_cache_key h repoUrl scan
  match (if enableCache then lookupA key st.cache else none) with
  | some cached => (cached, st)
  | none => verify_agent_uncached h now enableCache repoUrl scan ctx rand st

/-! ### Statement-side definitions for the claims -/

/-- Trust-score update formula exactly as the specification words it: the
recency bonus is conditioned on the days since the PREVIOUS verification's
`lastVerified` timestamp.  Written purely from the spec sentence, for
comparison against `update_trust_score` as invoked by `update_agent`. -/
def spec_update_trust_score (previousScore : ℚ) (verificationCount repositoryCount : ℕ)
    (daysSinceLastVerified : ℤ) (issuesFound : ℕ) (hasSecurityUpdates : Bool) : ℚ :=
  max 0.1 (min 1.0 (previousScore +
    min 0.2 ((verificationCount : ℚ) * 0.02) +
    min 0.15 (((repositoryCount : ℚ) - 1) * 0.05) +
    (if daysSinceLastVerified < 7 then 0.05 else 0) +
    (if issuesFound = 0 then 0.05 else 0) +
    (if hasSecurityUpdates then 0.03 else 0)))

/-- A concrete fingerprint value used by witnesses and counterexamples. -/
def cFp : Fingerprint :=
  { behavioral := "bh"
    structural := "sh"
    composite := "cp"
    metadata := { generated := 0, version := "1.0", algorithm := some "sha256", error := none } }

/-- A concrete agent record: one repository, baseline score, verified once
at day 0. -/
def cAgent : AgentRecord :=
  { id := "agentproof:aaaaaaaaaaaa-cp"
    fingerprint := "cp"
    fingerprintBehavioral := "bh"
    fingerprintStructural := "sh"
    repositories := ["https://a"]
    trustScore := 0.5
    created := 0
    lastVerified := 0
    verificationCount := 1
    extra := {} }

/-- A one-record registry holding `cAgent`. -/
def cReg : RegistryMap := [(cAgent.id, cAgent)]

/-- Scan input whose dependency extraction raises `IndexError`: the line
`from x import` has `import` as its final whitespace token, so
`tokens[tokens.index("import") + 1]` is out of range. -/
def cBadScan : ScanResults := { files := [{ path := "a.py", content := "from x import" }] }

/-- The example scenario of the spec: a single five-line `main.py`. -/
def c6_files : List FileRec :=
  [{ path := "main.py", content := "import openai\ntry:\n  pass\nexcept Exception:\n  pass" }]

/-- The example scenario's scan input (`securityScore=0.85`). -/
def c6_scan : ScanResults := { files := c6_files, securityScore := some 0.85 }

/-- The example scenario's GitHub context (`stars=0`). -/
def c6_ctx : GithubContext := { stargazersCount := some 0 }

/-- The metadata `enrich_metadata` produces for the example scenario. -/
def c6_md : Metadata :=
  { securityScore := some 0.85
    securityIssuesFound := some 0
    hasSecurityUpdates := some false
    hasTests := some false
    hasDocumentation := some false
    hasLicense := some false
    complexity := some "low"
    githubStars := some 0 }

/-- A benign scan input (no import lines at all) used by cache-claim
witnesses. -/
def wScan : ScanResults := { files := [{ path := "a.py", content := "alpha" }] }

/-- A two-file scan input for the determinism witness. -/
def w1Scan : ScanResults :=
  { files := [{ path := "a.py", content := "alpha" }, { path := "b.js", content := "beta" }] }

/-- The same two files in the opposite order. -/
def w2Scan : ScanResults :=
  { files := [{ path := "b.js", content := "beta" }, { path := "a.py", content := "alpha" }] }

/-! ### Shared lemmas -/

/-- Clamping with `max 0.1 (min 1.0 _)` lands in `[0.1, 1.0]`. -/
theorem clamp_mem (x : ℚ) : 0.1 ≤ max 0.1 (min 1.0 x) ∧ max 0.1 (min 1.0 x) ≤ 1.0 :=
  ⟨le_max_left _ _, max_le (by norm_num) (min_le_left _ _)⟩

/-- A linear scan over records none of which carries the composite finds
nothing. -/
theorem findAgent_eq_none (c : String) (reg : List (String × AgentRecord))
    (hmiss : ∀ p ∈ reg, (p.2).fingerprint ≠ c) : findAgent c reg = none := by
  induction reg with
  | nil => rfl
  | cons p rest ih =>
    simp only [findAgent]
    rw [if_neg (hmiss p (List.mem_cons_self p rest))]
    exact ih (fun q hq => hmiss q (List.mem_cons_of_mem _ hq))

/-- Looking up the key just stored always returns the stored value. -/
theorem lookupA_insertA {α : Type} (k : String) (v : α) (l : List (String × α)) :
    lookupA k (insertA k v l) = some v := by
  induction l with
  | nil => simp [insertA, lookupA]
  | cons p rest ih =>
    by_cases hk : p.1 = k
    · simp [insertA, hk, lookupA]
    · simp only [insertA]
      rw [if_neg hk]
      simp only [lookupA]
      rw [if_neg hk]
      exact ih

/-! ### C9: badge trust-level ladder -/

/-- C9: the badge trust-level function is a 5-tier ladder with inclusive
lower bounds 0.9 / 0.75 / 0.6 / 0.4, mapping to "verified" / "trusted" /
"validated" / "basic" and "unverified" below 0.4; in particular 0.90 is
"verified", 0.899999 is "trusted", 0.75 is "trusted" and 0.749999 is
"validated". -/
theorem c9_trust_level_ladder :
    (∀ s : ℚ, 0.9 ≤ s → get_trust_level s = "verified") ∧
    (∀ s : ℚ, 0.75 ≤ s → s < 0.9 → get_trust_level s = "trusted") ∧
    (∀ s : ℚ, 0.6 ≤ s → s < 0.75 → get_trust_level s = "validated") ∧
    (∀ s : ℚ, 0.4 ≤ s → s < 0.6 → get_trust_level s = "basic") ∧
    (∀ s : ℚ, s < 0.4 → get_trust_level s = "unverified") ∧
    get_trust_level 0.9 = "verified" ∧
    get_trust_level 0.899999 = "trusted" ∧
    get_trust_level 0.75 = "trusted" ∧
    get_trust_level 0.749999 = "validated" := by
  refine ⟨?_, ?_, ?_, ?_, ?_, ?_, ?_, ?_, ?_⟩
  · intro s hs
    simp only [get_trust_level]
    rw [if_pos hs]
  · intro s h₁ h₂
    simp only [get_trust_level]
    rw [if_neg (by exact not_le.mpr h₂), if_pos h₁]
  · intro s h₁ h₂
    simp only [get_trust_level]
    rw [if_neg (by intro hc; exact absurd (lt_of_lt_of_le h₂ (by norm_num)) (not_lt.mpr hc)),
      if_neg (not_le.mpr h₂), if_pos h₁]
  · intro s h₁ h₂
    simp only [get_trust_level]
    rw [if_neg (by intro hc; exact absurd (lt_of_lt_of_le h₂ (by norm_num)) (not_lt.mpr hc)),
      if_neg (by intro hc; exact absurd (lt_of_lt_of_le h₂ (by norm_num)) (not_lt.mpr hc)),
      if_neg (not_le.mpr h₂), if_pos h₁]
  · intro s h₂
    simp only [get_trust_level]
    rw [if_neg (by intro hc; exact absurd (lt_of_lt_of_le h₂ (by norm_num)) (not_lt.mpr hc)),
      if_neg (by intro hc; exact absurd (lt_of_lt_of_le h₂ (by norm_num)) (not_lt.mpr hc)),
      if_neg (by intro hc; exact absurd (lt_of_lt_of_le h₂ (by norm_num)) (not_lt.mpr hc)),
      if_neg (not_le.mpr h₂)]
  · norm_num [get_trust_level]
  · norm_num [get_trust_level]
  · norm_num [get_trust_level]
  · norm_num [get_trust_level]

/-- Witness for C9: each tier of the ladder evaluated at a sample score. -/
theorem c9_trust_level_ladder_witness :
    get_trust_level 0.95 = "verified" ∧ get_trust_level 0.8 = "trusted" ∧
    get_trust_level 0.7 = "validated" ∧ get_trust_level 0.5 = "basic" ∧
    get_trust_level 0.2 = "unverified" :=
  ⟨c9_trust_level_ladder.1 0.95 (by norm_num),
   c9_trust_level_ladder.2.1 0.8 (by norm_num) (by norm_num),
   c9_trust_level_ladder.2.2.1 0.7 (by norm_num) (by norm_num),
   c9_trust_level_ladder.2.2.2.1 0.5 (by norm_num) (by norm_num),
   c9_trust_level_ladder.2.2.2.2.1 0.2 (by norm_num)⟩

/-! ### C2: trust-score bounds -/

/-- C2: for every metadata input and every agent record with trust score
in [0.1, 1.0], both the initial trust score and the recomputed update
score lie in [0.1, 1.0]. -/
theorem c2_trust_score_bounds (fp : Fingerprint) (md : Metadata) (now : ℕ)
    (agent : AgentRecord) (h₁ : 0.1 ≤ agent.trustScore) (h₂ : agent.trustScore ≤ 1.0) :
    (0.1 ≤ calculate_initial_trust_score fp md ∧ calculate_initial_trust_score fp md ≤ 1.0) ∧
    (0.1 ≤ update_trust_score now agent md ∧ update_trust_score now agent md ≤ 1.0) := by
  constructor
  · simp only [calculate_initial_trust_score]
    exact clamp_mem _
  · simp only [update_trust_score]
    exact clamp_mem _

/-- Witness for C2: the bounds at a concrete metadata/record pair. -/
theorem c2_trust_score_bounds_witness :
    (0.1 ≤ calculate_initial_trust_score cFp { hasTests := some true } ∧
      calculate_initial_trust_score cFp { hasTests := some true } ≤ 1.0) ∧
    (0.1 ≤ update_trust_score 3 cAgent { hasTests := some true } ∧
      update_trust_score 3 cAgent { hasTests := some true } ≤ 1.0) :=
  c2_trust_score_bounds cFp { hasTests := some true } 3 cAgent
    (by norm_num [cAgent]) (by norm_num [cAgent])

/-! ### C8: updates never lower the score -/

/-- C8: for every existing agent record (hence with at least one
repository) whose trust score lies in [0.1, 1.0], `update_trust_score`
returns at least the previous trust score: every formula term is a
non-negative bonus. -/
theorem c8_update_monotone (now : ℕ) (agent : AgentRecord) (md : Metadata)
    (hrepo : agent.repositories ≠ []) (h₁ : 0.1 ≤ agent.trustScore)
    (h₂ : agent.trustScore ≤ 1.0) :
    agent.trustScore ≤ update_trust_score now agent md := by
  have hvb : (0 : ℚ) ≤ min 0.2 ((agent.verificationCount : ℚ) * 0.02) :=
    le_min (by norm_num) (by positivity)
  have hlen : (1 : ℚ) ≤ (agent.repositories.length : ℚ) := by
    have h0 : 0 < agent.repositories.length := List.length_pos.mpr hrepo
    exact_mod_cast h0
  have hcb : (0 : ℚ) ≤ min 0.15 (((agent.repositories.length : ℚ) - 1) * 0.05) :=
    le_min (by norm_num) (by nlinarith)
  simp only [update_trust_score]
  refine le_trans (le_min h₂ ?_) (le_max_right _ _)
  split_ifs <;> nlinarith [hvb, hcb]

/-- Witness for C8: monotonicity at a concrete record and metadata. -/
theorem c8_update_monotone_witness :
    cAgent.trustScore ≤ update_trust_score 3 cAgent { hasSecurityUpdates := some true } :=
  c8_update_monotone 3 cAgent { hasSecurityUpdates := some true }
    (by simp [cAgent]) (by norm_num [cAgent]) (by norm_num [cAgent])

/-! ### C10: consistency miss result -/

/-- C10: when no registry record carries the fingerprint's composite,
`verify_agent_consistency` returns exactly the miss record with
`consistent=false`, no agent id, trust score 0 (below the documented
record minimum 0.1), empty repositories and zero counts. -/
theorem c10_consistency_miss (fp : Fingerprint) (repoUrl : String) (reg : RegistryMap)
    (hmiss : ∀ p ∈ reg, (p.2).fingerprint ≠ fp.composite) :
    verify_agent_consistency fp repoUrl reg =
      { consistent := false, agentId := none, trustScore := 0, repositories := [],
        crossRepoCount := 0, verificationHistory := 0 } ∧ (0 : ℚ) < 0.1 := by
  constructor
  · simp only [verify_agent_consistency]
    rw [findAgent_eq_none fp.composite reg hmiss]
  · norm_num

/-- Witness for C10: the miss result on the empty registry. -/
theorem c10_consistency_miss_witness :
    verify_agent_consistency cFp "https://b" [] =
      { consistent := false, agentId := none, trustScore := 0, repositories := [],
        crossRepoCount := 0, verificationHistory := 0 } ∧ (0 : ℚ) < 0.1 :=
  c10_consistency_miss cFp "https://b" [] (by simp)

/-! ### C5: the update formula -/

/-- Counterexample to C5 as stated: for an agent last verified 10 days ago
(day 0, now day 10), the spec formula conditioned on the previous
`lastVerified` grants no recency bonus (10 ≥ 7) and predicts 0.54, but
`update_agent` overwrites `lastVerified` with the current time before
recomputing, so the code yields 0.59. -/
theorem c5_counterexample :
    ∃ r reg₂, update_agent 10 cAgent.id "https://a" cFp {} cReg = Except.ok (r, reg₂) ∧
      r.trustScore = 0.59 ∧
      spec_update_trust_score 0.5 2 1 (get_days_since 10 0) 1 false = 0.54 ∧
      r.trustScore ≠ spec_update_trust_score 0.5 2 1 (get_days_since 10 0) 1 false := by
  have hspec : spec_update_trust_score 0.5 2 1 (get_days_since 10 0) 1 false = 0.54 := by
    norm_num [spec_update_trust_score, get_days_since, min_def, max_def]
  have hlk : lookupA cAgent.id cReg = some cAgent := by
    simp [cReg, lookupA]
  cases hE : update_agent 10 cAgent.id "https://a" cFp {} cReg with
  | error e =>
    simp only [update_agent, hlk] at hE
    exact Except.noConfusion hE
  | ok p =>
    obtain ⟨r, reg₂⟩ := p
    have hE2 := hE
    simp only [update_agent, hlk] at hE2
    injection hE2 with hpair
    injection hpair with h1 h2
    subst h1
    have hts : update_trust_score 10
        { cAgent with
          repositories :=
            if "https://a" ∈ cAgent.repositories then cAgent.repositories
            else cAgent.repositories ++ ["https://a"],
          lastVerified := 10, verificationCount := cAgent.verificationCount + 1 } {} = 0.59 := by
      norm_num [update_trust_score, get_days_since, cAgent, min_def, max_def]
    refine ⟨_, _, rfl, ?_, hspec, ?_⟩
    · simpa using hts
    · rw [hspec]
      simpa using hts.trans_ne (by norm_num)

/-- C5 amended: the new trust score equals the clamp to [0.1, 1.0] of
previousScore + min(0.2, bumpedCount*0.02) + min(0.15, (repoCount-1)*0.05)
+ 0.05 (the recency bonus applies unconditionally, because `lastVerified`
is overwritten with the current time before the score is recomputed)
+ (0.05 if supplied issuesFound == 0) + (0.03 if hasSecurityUpdates),
where the repository URL is appended first and the count bumped first. -/
theorem c5_amended (now : ℕ) (agentId repoUrl : String) (fp : Fingerprint) (md : Metadata)
    (reg : RegistryMap) (agent : AgentRecord) (hl : lookupA agentId reg = some agent) :
    ∃ r reg₂, update_agent now agentId repoUrl fp md reg = Except.ok (r, reg₂) ∧
      r.trustScore = max 0.1 (min 1.0 (agent.trustScore +
        min 0.2 (((agent.verificationCount + 1 : ℕ) : ℚ) * 0.02) +
        min 0.15 ((((if repoUrl ∈ agent.repositories then agent.repositories
                     else agent.repositories ++ [repoUrl]).length : ℚ) - 1) * 0.05) +
        0.05 +
        (if md.securityIssuesFound.getD 1 = 0 then 0.05 else 0) +
        (if md.hasSecurityUpdates.getD false then 0.03 else 0))) := by
  cases hE : update_agent now agentId repoUrl fp md reg with
  | error e =>
    simp only [update_agent, hl] at hE
    exact Except.noConfusion hE
  | ok p =>
    obtain ⟨r, reg₂⟩ := p
    have hE2 := hE
    simp only [update_agent, hl] at hE2
    injection hE2 with hpair
    injection hpair with h1 h2
    subst h1
    refine ⟨_, _, rfl, ?_⟩
    have hdays : get_days_since now now < 7 := by norm_num [get_days_since]
    simp only [update_trust_score, hdays, if_true]
    congr 1
    congr 1
    split_ifs <;> push_cast <;> ring

/-- Witness for C5 amended: evaluated on the concrete one-record
registry. -/
theorem c5_amended_witness :
    ∃ r reg₂, update_agent 10 cAgent.id "https://a" cFp {} cReg = Except.ok (r, reg₂) ∧
      r.trustScore = max 0.1 (min 1.0 (cAgent.trustScore +
        min 0.2 (((cAgent.verificationCount + 1 : ℕ) : ℚ) * 0.02) +
        min 0.15 ((((if "https://a" ∈ cAgent.repositories then cAgent.repositories
                     else cAgent.repositories ++ ["https://a"]).length : ℚ) - 1) * 0.05) +
        0.05 +
        (if (Metadata.mk none none none none none none none none).securityIssuesFound.getD 1 = 0
          then 0.05 else 0) +
        (if (Metadata.mk none none none none none none none none).hasSecurityUpdates.getD false
          then 0.03 else 0))) :=
  c5_amended 10 cAgent.id "https://a" cFp {} cReg cAgent (by simp [cReg, lookupA])

/-! ### C4: failure contract -/

/-- C4: when dependency extraction raises, `generate_fingerprint` does not
propagate but returns the fallback fingerprint whose `metadata.error` is a
fixed non-empty string; and a verification whose fingerprint carries
`metadata.error` (on a cache miss) registers or updates nothing and
returns exactly the structured failure result with `success=false`, the
error block `{message, timestamp, repoUrl}`, and null agent, verification,
badge and fingerprint, leaving the state untouched. -/
theorem c4_failure_contract (hash : String → String) (iTs : Bool) (scan : ScanResults)
    (now : ℕ) (rand : String) (e : String) (repoUrl : String) (ctx : GithubContext)
    (st : VerifierState) (enableCache : Bool)
    (herr : analyze_dependencies scan.files = Except.error e)
    (hmiss : (if enableCache then lookupA (create_cache_key hash repoUrl scan) st.cache
              else none) = none) :
    ((generate_fingerprint hash iTs scan now rand).metadata.error =
        some "Fingerprint generation failed, using fallback" ∧
      "Fingerprint generation failed, using fallback" ≠ "") ∧
    verify_agent hash now enableCache repoUrl scan ctx rand st =
      ({ success := false, agent := none, verification := none, badge := none,
         fingerprint := none,
         error := some { message := "Failed to generate valid fingerprint", timestamp := now,
                         repoUrl := repoUrl },
         metadata := none }, st) := by
  have hstruct : extract_structural_patterns scan.files = Except.error e := by
    simp only [extract_structural_patterns, herr]
  have hfp : ∀ b : Bool, generate_fingerprint hash b scan now rand =
      create_fallback_fingerprint hash now rand := by
    intro b
    simp only [generate_fingerprint, hstruct]
  have hflag : ((create_fallback_fingerprint hash now rand).metadata.error.getD "" ≠ "") := by
    simp [create_fallback_fingerprint]
  refine ⟨⟨?_, by decide⟩, ?_⟩
  · rw [hfp iTs]
    rfl
  · simp only [verify_agent, hmiss]
    simp only [verify_agent_uncached, hfp false]
    rw [if_pos hflag]
    rfl

/-- Witness for C4: the failing scan input, an empty cache, identity
digest. -/
theorem c4_failure_contract_witness :
    (((generate_fingerprint (fun s => s) false cBadScan 0 "aaaa").metadata.error =
        some "Fingerprint generation failed, using fallback" ∧
      "Fingerprint generation failed, using fallback" ≠ "") ∧
    verify_agent (fun s => s) 0 true "https://a" cBadScan { } "aaaa" { } =
      ({ success := false, agent := none, verification := none, badge := none,
         fingerprint := none,
         error := some { message := "Failed to generate valid fingerprint", timestamp := 0,
                         repoUrl := "https://a" },
         metadata := none }, { })) :=
  c4_failure_contract (fun s => s) false cBadScan 0 "aaaa" "list index out of range"
    "https://a" { } { } true (by decide) rfl

/-! ### C3: cross-repository identity linkage -/

/-- C3: after registering fingerprint F from repo A on an empty registry,
verifying the same F from repo B reports consistent=true with the existing
record's agentId; the subsequent update leaves both A and B in the
repositories list; and re-verifying and updating from A again leaves A
appearing exactly once (no duplicates). -/
theorem c3_identity_linkage (hash : String → String) (now₁ now₂ now₃ : ℕ)
    (repoA repoB : String) (fp : Fingerprint) (md₁ md₂ md₃ : Metadata) :
    ∃ r₁ reg₁, register_agent hash now₁ repoA fp md₁ [] = Except.ok (r₁, reg₁) ∧
      (verify_agent_consistency fp repoB reg₁).consistent = true ∧
      (verify_agent_consistency fp repoB reg₁).agentId = some r₁.id ∧
      ∃ r₂ reg₂, update_agent now₂ r₁.id repoB fp md₂ reg₁ = Except.ok (r₂, reg₂) ∧
        repoA ∈ r₂.repositories ∧ repoB ∈ r₂.repositories ∧
        (verify_agent_consistency fp repoA reg₂).consistent = true ∧
        (verify_agent_consistency fp repoA reg₂).agentId = some r₁.id ∧
        ∃ r₃ reg₃, update_agent now₃ r₁.id repoA fp md₃ reg₂ = Except.ok (r₃, reg₃) ∧
          r₃.repositories.count repoA = 1 := by
  refine ⟨_, _, rfl, ?_, ?_, ?_⟩
  · simp [verify_agent_consistency, findAgent]
  · simp [verify_agent_consistency, findAgent]
  · simp only [update_agent, lookupA, insertA, if_pos]
    refine ⟨_, _, rfl, ?_, ?_, ?_, ?_, ?_⟩
    · by_cases hAB : repoB = repoA <;> simp [hAB]
    · by_cases hAB : repoB = repoA <;> simp [hAB]
    · simp [verify_agent_consistency, findAgent]
    · simp [verify_agent_consistency, findAgent]
    · simp only [update_agent, lookupA, insertA, if_pos]
      refine ⟨_, _, rfl, ?_⟩
      by_cases hAB : repoB = repoA <;> simp [hAB, List.count_cons]

/-! ### C7: cache idempotence -/

/-- Every successful uncached verification leaves its result stored in the
cache under its own key. -/
theorem verify_uncached_success_lookup (hash : String → String) (now : ℕ) (repoUrl : String)
    (scan : ScanResults) (ctx : GithubContext) (rand : String) (st : VerifierState)
    (res : VerificationResult) (st₂ : VerifierState)
    (heq : verify_agent_uncached hash now true repoUrl scan ctx rand st = (res, st₂))
    (hs : res.success = true) :
    lookupA (create_cache_key hash repoUrl scan) st₂.cache = some res := by
  simp only [verify_agent_uncached] at heq
  split at heq
  · injection heq with h1 h2
    rw [← h1] at hs
    simp [create_error_result] at hs
  · split at heq
    · injection heq with h1 h2
      rw [← h1] at hs
      simp [create_error_result] at hs
    · injection heq with h1 h2
      rw [← h1, ← h2]
      simp [lookupA_insertA]

/-- A cache hit returns the stored result with the state untouched. -/
theorem verify_agent_cache_hit (hash : String → String) (now : ℕ) (enableCache : Bool)
    (repoUrl : String) (scan : ScanResults) (ctx : GithubContext) (rand : String)
    (st : VerifierState) (r : VerificationResult)
    (hit : (if enableCache then lookupA (create_cache_key hash repoUrl scan) st.cache
            else none) = some r) :
    verify_agent hash now enableCache repoUrl scan ctx rand st = (r, st) := by
  simp only [verify_agent, hit]

/-- A cache miss falls through to the uncached body. -/
theorem verify_agent_cache_miss (hash : String → String) (now : ℕ) (enableCache : Bool)
    (repoUrl : String) (scan : ScanResults) (ctx : GithubContext) (rand : String)
    (st : VerifierState)
    (miss : (if enableCache then lookupA (create_cache_key hash repoUrl scan) st.cache
             else none) = none) :
    verify_agent hash now enableCache repoUrl scan ctx rand st =
      verify_agent_uncached hash now enableCache repoUrl scan ctx rand st := by
  simp only [verify_agent, miss]

/-- C7: with caching enabled, after one `verify_agent` call producing a
successful result, a second call with the same repoUrl and identical files
(any timestamp, context, or random filler) returns the identical result
value and leaves the whole state — registry included, hence also the
agent's verificationCount — unchanged. -/
theorem c7_cache_idempotence (hash : String → String) (now₁ now₂ : ℕ) (repoUrl : String)
    (scan₁ scan₂ : ScanResults) (ctx₁ ctx₂ : GithubContext) (rand₁ rand₂ : String)
    (st₀ : VerifierState) (res₁ : VerificationResult) (st₁ : VerifierState)
    (h₁ : verify_agent hash now₁ true repoUrl scan₁ ctx₁ rand₁ st₀ = (res₁, st₁))
    (hs : res₁.success = true) (hf : scan₂.files = scan₁.files) :
    verify_agent hash now₂ true repoUrl scan₂ ctx₂ rand₂ st₁ = (res₁, st₁) := by
  have hkey : create_cache_key hash repoUrl scan₂ = create_cache_key hash repoUrl scan₁ := by
    simp [create_cache_key, encFiles, hf]
  cases hc : lookupA (create_cache_key hash repoUrl scan₁) st₀.cache with
  | none =>
    have hmiss := verify_agent_cache_miss hash now₁ true repoUrl scan₁ ctx₁ rand₁ st₀
      (by simp [hc])
    rw [hmiss] at h₁
    have hl := verify_uncached_success_lookup hash now₁ repoUrl scan₁ ctx₁ rand₁ st₀ res₁ st₁
      h₁ hs
    exact verify_agent_cache_hit hash now₂ true repoUrl scan₂ ctx₂ rand₂ st₁ res₁
      (by simp [hkey, hl])
  | some cached =>
    have h₁' := (verify_agent_cache_hit hash now₁ true repoUrl scan₁ ctx₁ rand₁ st₀ cached
      (by simp [hc])).symm.trans h₁
    rw [Prod.mk.injEq] at h₁'
    obtain ⟨hr, hst⟩ := h₁'
    subst hr
    subst hst
    exact verify_agent_cache_hit hash now₂ true repoUrl scan₂ ctx₂ rand₂ st₀ cached
      (by simp [hkey, hc])

/-- Witness for C7: a concrete first call on the empty state succeeds, and
the second call returns exactly its result and state. -/
theorem c7_cache_idempotence_witness :
    verify_agent (fun s => s) 1 true "https://a" wScan { } "r2"
        (verify_agent (fun s => s) 0 true "https://a" wScan { } "r1" { }).2 =
      ((verify_agent (fun s => s) 0 true "https://a" wScan { } "r1" { }).1,
       (verify_agent (fun s => s) 0 true "https://a" wScan { } "r1" { }).2) :=
  c7_cache_idempotence (fun s => s) 0 1 "https://a" wScan wScan { } { } "r1" "r2" { } _ _
    rfl (by decide) rfl

/-! ### C6: the example scenario -/

/-- Shared evaluation of the spec's example scenario through the
`verify_agent` pipeline: the registered agent's initial score is 0.75
(0.5 base + 0.2 for securityScore 0.85 > 0.8 + 0.05 for the "low"
complexity assessed from 5 < 500 total lines), giving badge tier "trusted"
with color #97CA00. -/
theorem c6_run (hash : String → String) (now : ℕ) (rand : String) (repoUrl : String) :
    ∃ res st, verify_agent hash now true repoUrl c6_scan c6_ctx rand { } = (res, st) ∧
      ∃ a b, res.agent = some a ∧ res.badge = some b ∧
        a.trustScore = 0.75 ∧ b.metadata.trustLevel = "trusted" ∧
        b.metadata.color = "#97CA00" := by
  have h1 : detect_tests c6_scan = false := by decide
  have h2 : detect_documentation c6_scan = false := by decide
  have h3 : detect_license c6_scan = false := by decide
  have h4 : assess_complexity c6_scan = "low" := by decide
  have henrich : enrich_metadata c6_scan c6_ctx = c6_md := by
    simp only [enrich_metadata, h1, h2, h3, h4]
    simp [c6_scan, c6_ctx, c6_md]
  have hscore : ∀ FP : Fingerprint, calculate_initial_trust_score FP c6_md = 0.75 := by
    intro FP
    norm_num [calculate_initial_trust_score, c6_md, min_def, max_def]
  cases hE : extract_structural_patterns c6_scan.files with
  | error e =>
    have hok : (extract_structural_patterns c6_scan.files).isOk = true := by decide
    rw [hE] at hok
    simp [Except.isOk, Except.toBool] at hok
  | ok stp =>
    have hmiss := verify_agent_cache_miss hash now true repoUrl c6_scan c6_ctx rand { }
      (by simp [lookupA])
    rw [hmiss]
    simp only [verify_agent_uncached, generate_fingerprint, hE]
    rw [if_neg (by simp)]
    simp only [verify_agent_consistency, findAgent]
    simp only [register_agent, lookupA]
    rw [henrich]
    refine ⟨_, _, rfl, _, _, rfl, rfl, ?_, ?_, ?_⟩
    · norm_num [hscore]
    · norm_num [generate_badge, prepare_badge_data, hscore, get_trust_level]
    · norm_num [generate_badge, prepare_badge_data, hscore, get_trust_color]

/-- Counterexample to C6 as stated: on the example scenario the pipeline
produces initial score 0.75 (not 0.7), badge tier "trusted" (not
"validated") and color #97CA00 (not #dfb317), because the 5-line file is
assessed as "low" complexity, which adds a further +0.05. -/
theorem c6_example_counterexample :
    ∃ res st, verify_agent (fun s => s) 0 true "https://r" c6_scan c6_ctx "" { } = (res, st) ∧
      ∃ a b, res.agent = some a ∧ res.badge = some b ∧
        a.trustScore = 0.75 ∧ a.trustScore ≠ 0.7 ∧
        b.metadata.trustLevel = "trusted" ∧ b.metadata.trustLevel ≠ "validated" ∧
        b.metadata.color = "#97CA00" ∧ b.metadata.color ≠ "#dfb317" := by
  obtain ⟨res, st, hv, a, b, ha, hb, hts, hlvl, hcol⟩ := c6_run (fun s => s) 0 "" "https://r"
  exact ⟨res, st, hv, a, b, ha, hb, hts, by rw [hts]; norm_num, hlvl,
    by rw [hlvl]; decide, hcol, by rw [hcol]; decide⟩

/-- C6 amended: for the example scenario (securityScore 0.85, stars 0, no
tests/docs/license detected, complexity assessed "low" from 5 total
lines), the initial trust score through the `verify_agent` pipeline is
0.5 + 0.2 + 0.05 = 0.75, the badge trust level is "trusted" and the badge
color is "#97CA00". -/
theorem c6_example_scenario (hash : String → String) (now : ℕ) (rand : String)
    (repoUrl : String) :
    ∃ res st, verify_agent hash now true repoUrl c6_scan c6_ctx rand { } = (res, st) ∧
      ∃ a b, res.agent = some a ∧ res.badge = some b ∧
        a.trustScore = 0.75 ∧ b.metadata.trustLevel = "trusted" ∧
        b.metadata.color = "#97CA00" :=
  c6_run hash now rand repoUrl

/-! ### C1: fingerprint determinism under permutation -/

/-- Any-over-files is invariant under permutation of the file list. -/
theorem perm_any {α : Type} {l₁ l₂ : List α} (h : List.Perm l₁ l₂) (f : α → Bool) :
    l₁.any f = l₂.any f := by
  have hiff : (l₁.any f = true) ↔ (l₂.any f = true) := by
    simp [List.any_eq_true, h.mem_iff]
  exact Bool.coe_iff_coe.mp hiff

/-- FlatMap respects permutation of the outer list. -/
theorem perm_flatMap {α β : Type} {l₁ l₂ : List α} (h : List.Perm l₁ l₂) (f : α → List β) :
    List.Perm (l₁.flatMap f) (l₂.flatMap f) := by
  induction h with
  | nil => exact List.Perm.refl _
  | cons x _ ih => simpa using ih.append_left (f x)
  | swap x y l =>
    simp only [List.flatMap_cons]
    rw [← List.append_assoc, ← List.append_assoc]
    exact List.perm_append_comm.append_right _
  | trans _ _ ih₁ ih₂ => exact ih₁.trans ih₂

/-- Python `sorted(set(...))` depends only on the multiset of elements. -/
theorem pySortedSet_perm {l₁ l₂ : List String} (h : List.Perm l₁ l₂) :
    pySortedSet l₁ = pySortedSet l₂ := by
  apply List.eq_of_perm_of_sorted ?_ (List.sorted_insertionSort _ _)
    (List.sorted_insertionSort _ _)
  exact (List.perm_insertionSort _ _).trans (h.dedup.trans (List.perm_insertionSort _ _).symm)

/-- Candidate-hit collection is invariant under file permutation. -/
theorem collectHits_perm {l₁ l₂ : List FileRec} (h : List.Perm l₁ l₂)
    (cands : List (String × (FileRec → Bool))) : collectHits cands l₁ = collectHits cands l₂ := by
  have hp : (fun c : String × (FileRec → Bool) => l₁.any c.2) = (fun c => l₂.any c.2) :=
    funext fun c => perm_any h c.2
  simp only [collectHits, hp]

/-- Per-file sums are invariant under file permutation. -/
theorem sumOver_perm {l₁ l₂ : List FileRec} (h : List.Perm l₁ l₂) (g : FileRec → ℕ) :
    sumOver l₁ g = sumOver l₂ g := (h.map g).sum_eq

/-- The API-pattern analysis is permutation-invariant. -/
theorem analyze_api_patterns_perm {l₁ l₂ : List FileRec} (h : List.Perm l₁ l₂) :
    analyze_api_patterns l₁ = analyze_api_patterns l₂ := by
  simp only [analyze_api_patterns, collectHits_perm h, sumOver_perm h]

/-- The error-handling counts are permutation-invariant. -/
theorem analyze_error_handling_perm {l₁ l₂ : List FileRec} (h : List.Perm l₁ l₂) :
    analyze_error_handling l₁ = analyze_error_handling l₂ := by
  simp only [analyze_error_handling, sumOver_perm h]

/-- The rate-limiting counts are permutation-invariant. -/
theorem analyze_rate_limiting_perm {l₁ l₂ : List FileRec} (h : List.Perm l₁ l₂) :
    analyze_rate_limiting l₁ = analyze_rate_limiting l₂ := by
  simp only [analyze_rate_limiting, sumOver_perm h]

/-- The data-flow analysis is permutation-invariant. -/
theorem analyze_data_flow_perm {l₁ l₂ : List FileRec} (h : List.Perm l₁ l₂) :
    analyze_data_flow l₁ = analyze_data_flow l₂ := by
  simp only [analyze_data_flow, collectHits_perm h, sumOver_perm h]

/-- Language detection is permutation-invariant. -/
theorem detect_languages_perm {l₁ l₂ : List FileRec} (h : List.Perm l₁ l₂) :
    detect_languages l₁ = detect_languages l₂ := by
  simp only [detect_languages]
  exact pySortedSet_perm (h.filterMap _)

/-- The architecture analysis is permutation-invariant. -/
theorem analyze_architecture_perm {l₁ l₂ : List FileRec} (h : List.Perm l₁ l₂) :
    analyze_architecture l₁ = analyze_architecture l₂ := by
  simp only [analyze_architecture, collectHits_perm h, detect_languages_perm h, h.length_eq]

/-- The whole behavioral category is permutation-invariant. -/
theorem extract_behavioral_patterns_perm {l₁ l₂ : List FileRec} (h : List.Perm l₁ l₂) :
    extract_behavioral_patterns l₁ = extract_behavioral_patterns l₂ := by
  simp only [extract_behavioral_patterns, analyze_api_patterns_perm h,
    analyze_error_handling_perm h, analyze_rate_limiting_perm h, analyze_data_flow_perm h]

/-- If the dependency walk succeeds, every file's extraction succeeds. -/
theorem allDeps_ok_all : ∀ {files : List FileRec} {d : List String},
    allDeps files = Except.ok d → ∀ f ∈ files, (fileDeps f).isOk = true := by
  intro files
  induction files with
  | nil => intro d _ f hf; exact absurd hf (List.not_mem_nil f)
  | cons x rest ih =>
    intro d hd f hf
    simp only [allDeps] at hd
    cases hx : fileDeps x with
    | error e =>
      simp only [hx] at hd
      exact Except.noConfusion hd
    | ok a =>
      simp only [hx] at hd
      cases hr : allDeps rest with
      | error e =>
        simp only [hr] at hd
        exact Except.noConfusion hd
      | ok b =>
        rcases List.mem_cons.mp hf with rfl | hf₂
        · simp [Except.isOk, Except.toBool, hx]
        · exact ih hr f hf₂

/-- When every file succeeds, the dependency walk returns the
concatenation of the per-file dependency lists, in file order. -/
theorem allDeps_eq : ∀ files : List FileRec, (∀ f ∈ files, (fileDeps f).isOk = true) →
    allDeps files = Except.ok (files.flatMap (fun f => match fileDeps f with
      | Except.ok l => l
      | Except.error _ => [])) := by
  intro files
  induction files with
  | nil => intro _; rfl
  | cons x rest ih =>
    intro hall
    have hx : (fileDeps x).isOk = true := hall x (List.mem_cons_self x rest)
    cases hfx : fileDeps x with
    | error e => rw [hfx] at hx; simp [Except.isOk, Except.toBool] at hx
    | ok a =>
      simp only [allDeps, hfx, ih (fun f hf => hall f (List.mem_cons_of_mem _ hf))]
      simp [List.flatMap_cons, hfx]

/-- A successful dependency analysis yields the same sorted set on any
permutation of the files. -/
theorem analyze_dependencies_perm {l₁ l₂ : List FileRec} (h : List.Perm l₁ l₂)
    {d : List String} (hd : analyze_dependencies l₁ = Except.ok d) :
    analyze_dependencies l₂ = Except.ok d := by
  cases hD : allDeps l₁ with
  | error e =>
    simp only [analyze_dependencies, hD] at hd
    exact Except.noConfusion hd
  | ok D =>
    simp only [analyze_dependencies, hD] at hd
    injection hd with hd₁
    have hall₁ := allDeps_ok_all hD
    have hall₂ : ∀ f ∈ l₂, (fileDeps f).isOk = true := fun f hf => hall₁ f (h.mem_iff.mpr hf)
    have h₁ := allDeps_eq l₁ hall₁
    have h₂ := allDeps_eq l₂ hall₂
    rw [hD] at h₁
    injection h₁ with hD₁
    simp only [analyze_dependencies, h₂]
    rw [← hd₁, hD₁]
    exact congrArg Except.ok (pySortedSet_perm (perm_flatMap h _)).symm

/-- A successful structural extraction is permutation-invariant. -/
theorem extract_structural_patterns_perm {l₁ l₂ : List FileRec} (h : List.Perm l₁ l₂)
    {s : StructuralPatterns} (hs : extract_structural_patterns l₁ = Except.ok s) :
    extract_structural_patterns l₂ = Except.ok s := by
  cases hd : analyze_dependencies l₁ with
  | error e =>
    simp only [extract_structural_patterns, hd] at hs
    exact Except.noConfusion hs
  | ok deps =>
    simp only [extract_structural_patterns, hd] at hs
    injection hs with hs₁
    simp only [extract_structural_patterns, analyze_dependencies_perm h hd]
    rw [← hs₁, ← analyze_architecture_perm h]

/-- C1 amended: with include_timestamp=false, whenever pattern extraction
succeeds (`analyze_dependencies` does not raise), two calls to
`generate_fingerprint` on permuted file lists — in particular repeated
calls on the same input — return equal behavioral, structural and
composite hashes, for any digest, call times and random filler. -/
theorem c1_determinism (hash : String → String) (now₁ now₂ : ℕ) (rand₁ rand₂ : String)
    (scan₁ scan₂ : ScanResults) (hp : List.Perm scan₁.files scan₂.files)
    (hok : (analyze_dependencies scan₁.files).isOk = true) :
    (generate_fingerprint hash false scan₁ now₁ rand₁).behavioral =
      (generate_fingerprint hash false scan₂ now₂ rand₂).behavioral ∧
    (generate_fingerprint hash false scan₁ now₁ rand₁).structural =
      (generate_fingerprint hash false scan₂ now₂ rand₂).structural ∧
    (generate_fingerprint hash false scan₁ now₁ rand₁).composite =
      (generate_fingerprint hash false scan₂ now₂ rand₂).composite := by
  obtain ⟨d, hd⟩ : ∃ d, analyze_dependencies scan₁.files = Except.ok d := by
    cases hE : analyze_dependencies scan₁.files with
    | ok d => exact ⟨d, rfl⟩
    | error e => rw [hE] at hok; simp [Except.isOk, Except.toBool] at hok
  have hs₁ : extract_structural_patterns scan₁.files =
      Except.ok ⟨analyze_architecture scan₁.files, d⟩ := by
    simp only [extract_structural_patterns, hd]
  have hs₂ := extract_structural_patterns_perm hp hs₁
  have hb := extract_behavioral_patterns_perm hp
  simp only [generate_fingerprint, hs₁, hs₂, hb]
  simp [create_composite_hash]

/-- Counterexample to C1 as stated: on an input whose extraction raises
(`from x import`), repeated calls on the very same files return the
randomized fallback fingerprint, and two calls with different random
filler give different behavioral and composite hashes. -/
theorem c1_counterexample :
    List.Perm cBadScan.files cBadScan.files ∧
    (generate_fingerprint (fun s => s) false cBadScan 0 "aaaa").behavioral ≠
      (generate_fingerprint (fun s => s) false cBadScan 0 "bbbb").behavioral ∧
    (generate_fingerprint (fun s => s) false cBadScan 0 "aaaa").composite ≠
      (generate_fingerprint (fun s => s) false cBadScan 0 "bbbb").composite :=
  ⟨List.Perm.refl _, by decide, by decide⟩

/-- Witness for C1 amended: two concrete two-file scans in opposite
order, extraction succeeding, yield equal hashes. -/
theorem c1_determinism_witness :
    List.Perm w1Scan.files w2Scan.files ∧
    (analyze_dependencies w1Scan.files).isOk = true ∧
    ((generate_fingerprint (fun s => s) false w1Scan 0 "x").behavioral =
      (generate_fingerprint (fun s => s) false w2Scan 1 "y").behavioral ∧
    (generate_fingerprint (fun s => s) false w1Scan 0 "x").structural =
      (generate_fingerprint (fun s => s) false w2Scan 1 "y").structural ∧
    (generate_fingerprint (fun s => s) false w1Scan 0 "x").composite =
      (generate_fingerprint (fun s => s) false w2Scan 1 "y").composite) :=
  ⟨by decide, by decide,
   c1_determinism (fun s => s) 0 1 "x" "y" w1Scan w2Scan (by decide) (by decide)⟩
